import Mathlib

/-!
# Verification of the Mytrip tourism web application

A shallow embedding of the pure computational content of the Mytrip
repository (a Next.js tourism browsing site), together with proofs of the
behavioural properties stated in its specification.

Conventions of the embedding:

* JavaScript numbers that the code produces from decimal string parsing and
  divides by exact powers of ten are modelled as rationals (`ℚ`); integer
  arithmetic is modelled with `Int`/`Nat`.
* `parseFloat` / `parseInt(s, 10)` are modelled by executable Lean functions
  over the string's characters, returning `none` for `NaN` (the `Infinity`
  results of `parseFloat`, impossible for the inputs this app feeds it, are
  conflated with `NaN`).
* Network effects are made explicit: every `fetch`-ing function takes the
  observed response as an argument (an inductive covering the branches the
  source discriminates on: non-OK HTTP response, OK JSON body with a result
  code, or a thrown error), and functions that may or may not issue a request
  record that decision in their result.
* `Array.prototype.sort(cmp)` (a stable sort) is modelled by
  `List.insertionSort` over the relation `cmp a b ≤ 0`.
-/

namespace Mytrip

/-! ## Models of JavaScript string primitives -/

/-- Whitespace as skipped by JS `trim` / numeric parsing (modelled by Lean's
`Char.isWhitespace`). -/
def isJsWS (c : Char) : Bool := c.isWhitespace

/-- `String.prototype.trim`: drop leading and trailing whitespace. -/
def jsTrim (s : String) : String :=
  ⟨((s.data.dropWhile isJsWS).reverse.dropWhile isJsWS).reverse⟩

/-- Numeric value of a list of decimal digit characters. -/
def digitsVal (cs : List Char) : Nat :=
  cs.foldl (fun n c => n * 10 + (c.toNat - 48)) 0

/-- Digits-only part of `parseInt(s, 10)`: longest prefix of decimal digits,
`none` when there is none. -/
def parseIntDigits (cs : List Char) : Option Nat :=
  let ds := cs.takeWhile Char.isDigit
  if ds = [] then none else some (digitsVal ds)

/-- `parseInt(s, 10)`: skip leading whitespace, optional sign, then the
longest prefix of decimal digits; `none` models `NaN`. -/
def jsParseInt (s : String) : Option Int :=
  match s.data.dropWhile isJsWS with
  | '+' :: r => (parseIntDigits r).map (fun n => (n : Int))
  | '-' :: r => (parseIntDigits r).map (fun n => -(n : Int))
  | cs => (parseIntDigits cs).map (fun n => (n : Int))

/-- Exponent magnitude of `parseFloat`: `q * 10 ^ digits`, or `q` unchanged
when no digits follow. -/
def expMag (q : ℚ) (neg : Bool) (cs : List Char) : ℚ :=
  let ds := cs.takeWhile Char.isDigit
  if ds = [] then q
  else if neg then q / 10 ^ digitsVal ds else q * 10 ^ digitsVal ds

/-- Optional exponent part (`e`/`E`, optional sign, digits) of `parseFloat`. -/
def applyExponent (q : ℚ) (cs : List Char) : ℚ :=
  match cs with
  | 'e' :: '+' :: r => expMag q false r
  | 'e' :: '-' :: r => expMag q true r
  | 'e' :: r => expMag q false r
  | 'E' :: '+' :: r => expMag q false r
  | 'E' :: '-' :: r => expMag q true r
  | 'E' :: r => expMag q false r
  | _ => q

/-- Unsigned magnitude of `parseFloat`: integer digits, optional fraction,
optional exponent; `none` when no digit is found at all. -/
def parseFloatMag (cs : List Char) : Option ℚ :=
  let intDigits := cs.takeWhile Char.isDigit
  let rest := cs.dropWhile Char.isDigit
  let fracDigits :=
    match rest with
    | '.' :: r => r.takeWhile Char.isDigit
    | _ => ([] : List Char)
  let afterFrac :=
    match rest with
    | '.' :: r => r.dropWhile Char.isDigit
    | _ => rest
  if intDigits = [] ∧ fracDigits = [] then none
  else
    some (applyExponent
      ((digitsVal intDigits : ℚ) + (digitsVal fracDigits : ℚ) / 10 ^ fracDigits.length)
      afterFrac)

/-- Signed part of `parseFloat` (after leading whitespace is gone). -/
def parseFloatChars (cs : List Char) : Option ℚ :=
  match cs with
  | '+' :: r => parseFloatMag r
  | '-' :: r => (parseFloatMag r).map (fun q => -q)
  | _ => parseFloatMag cs

/-- `parseFloat(s)`: skip leading whitespace then parse the longest numeric
prefix; `none` models `NaN`. -/
def jsParseFloat (s : String) : Option ℚ :=
  parseFloatChars (s.data.dropWhile isJsWS)

/-- JS truthiness of a nullable string (`null`/`undefined` and `""` are
falsy). -/
def jsTruthy (v : Option String) : Bool :=
  match v with
  | none => false
  | some s => s ≠ ""

/-- `a || d` for a nullable string `a`: the string itself when truthy,
otherwise the default. -/
def jsOrStr (v : Option String) (d : String) : String :=
  match v with
  | none => d
  | some s => if s = "" then d else s

/-- `a || 0`-style defaulting for a possibly-absent count. -/
def jsOrNat (v : Option Nat) (d : Nat) : Nat :=
  match v with
  | none => d
  | some n => if n = 0 then d else n

/-! ## Coordinate conversion (`src/lib/utils/coordinate.ts`) -/

/-- Decimal-degree coordinate used by the Naver map (`Coordinate` in
`lib/types/tour.ts`). -/
structure Coordinate where
  lng : ℚ
  lat : ℚ
  deriving Repr, DecidableEq

/-- `convertKATECToNaver` from `src/lib/utils/coordinate.ts`: reject empty or
whitespace-only inputs, parse both strings, divide by `10000000`, reject
`NaN` and out-of-range results, otherwise return the coordinate. -/
def convertKATECToNaver (mapx mapy : String) : Option Coordinate :=
  if mapx = "" ∨ mapy = "" ∨ jsTrim mapx = "" ∨ jsTrim mapy = "" then none
  else
    match jsParseFloat mapx, jsParseFloat mapy with
    | some x, some y =>
      let lng := x / 10000000
      let lat := y / 10000000
      if lng < -180 ∨ lng > 180 ∨ lat < -90 ∨ lat > 90 then none
      else some ⟨lng, lat⟩
    | _, _ => none

/-! ## DTOs (`src/lib/types/tour.ts`, `src/lib/types/bookmark.ts`)

Only the required (non-optional) fields are carried; the optional display
fields of the source interfaces play no role in any verified property. -/

/-- `TourItem` (list/search API DTO). -/
structure TourItem where
  addr1 : String
  areacode : String
  contentid : String
  contenttypeid : String
  title : String
  mapx : String
  mapy : String
  modifiedtime : String
  deriving Repr, DecidableEq

/-- `TourDetail` (detail API DTO); slimmed to the fields the bookmark list
reads. -/
structure TourDetail where
  contentid : String
  contenttypeid : String
  title : String
  addr1 : String
  mapx : String
  mapy : String
  deriving Repr, DecidableEq

/-- `AreaCode` (region reference DTO). -/
structure AreaCode where
  code : String
  name : String
  deriving Repr, DecidableEq

/-- `LocalStorageBookmark` (`lib/types/bookmark.ts`). -/
structure LocalStorageBookmark where
  content_id : String
  created_at : String
  deriving Repr, DecidableEq

/-! ## Observed network responses

The source discriminates its `fetch` results by: HTTP not-OK, OK JSON body
(with a result code, an `items.item` field that may be an array, a single
object or absent, and a possibly-absent `totalCount`), or a thrown error.
`NetResponse` records exactly that observation. -/

/-- The `response.body.items.item` field: array, single object, or absent. -/
inductive ItemsField (α : Type) where
  | arr (l : List α)
  | single (t : α)
  | absent
  deriving Repr, DecidableEq

/-- `Array.isArray(items) ? items : items ? [items] : []`. -/
def itemsToList {α : Type} : ItemsField α → List α
  | .arr l => l
  | .single t => [t]
  | .absent => []

/-- Observed response of one proxied API call. -/
inductive NetResponse (α : Type) where
  | notOk (errMessage : Option String) (status : Nat)
  | okJson (resultCode : String) (resultMsg : Option String)
      (items : ItemsField α) (totalCount : Option Nat)
  | throws (errMessage : Option String)
  deriving Repr, DecidableEq

/-! ## Home page data fetching (`src/app/page.tsx`) -/

/-- Result of `fetchTourSearch`; `requested` records whether the internal
API route was called at all (the URL construction itself, which does not
influence the returned record, is elided). -/
structure SearchResult where
  requested : Bool
  tours : List TourItem
  totalCount : Nat
  error : Option String
  deriving Repr, DecidableEq

/-- Validation message of `fetchTourSearch` for a too-short keyword. -/
def searchInvalidKeywordMsg : String := "검색어는 최소 2자 이상 입력해주세요."

/-- `fetchTourSearch` from `src/app/page.tsx`: validate the trimmed keyword
(at least 2 characters), then call the proxy and map its response. -/
def fetchTourSearch (keyword : String) (net : NetResponse TourItem) : SearchResult :=
  let trimmedKeyword := jsTrim keyword
  if trimmedKeyword = "" ∨ trimmedKeyword.length < 2 then
    ⟨false, [], 0, some searchInvalidKeywordMsg⟩
  else
    match net with
    | .notOk msg status =>
      ⟨true, [], 0, some (jsOrStr msg ("API 요청 실패: " ++ toString status))⟩
    | .okJson resultCode resultMsg items tc =>
      if resultCode ≠ "0000" then
        ⟨true, [], 0, some (jsOrStr resultMsg "Unknown error")⟩
      else
        ⟨true, itemsToList items, jsOrNat tc 0, none⟩
    | .throws msg =>
      ⟨true, [], 0, some (msg.getD "검색 중 오류가 발생했습니다.")⟩

/-- Result of `fetchTourList`. Its declared TypeScript type promises a
numeric `totalCount`, but one branch omits the field, so the model makes it
an `Option Nat` with `none` standing for `undefined`. -/
structure ListResult where
  tours : List TourItem
  totalCount : Option Nat
  error : Option String
  deriving Repr, DecidableEq

/-- `fetchTourList` from `src/app/page.tsx`: call the proxy's
`areaBasedList` endpoint and map its response.  Note that the non-OK branch
and the bad-result-code branch return records without a `totalCount`. -/
def fetchTourList (net : NetResponse TourItem) : ListResult :=
  match net with
  | .notOk msg status =>
    ⟨[], none, some (jsOrStr msg ("API 요청 실패: " ++ toString status))⟩
  | .okJson resultCode resultMsg items tc =>
    if resultCode ≠ "0000" then
      ⟨[], none, some (jsOrStr resultMsg "Unknown error")⟩
    else
      ⟨itemsToList items, some (jsOrNat tc 0), none⟩
  | .throws msg =>
    ⟨[], some 0, some (msg.getD "관광지 목록을 불러오는 중 오류가 발생했습니다.")⟩

/-- `sortTours` from `src/app/page.tsx`.  `Array.prototype.sort` with a
comparator is modelled by the stable `List.insertionSort` over
`cmp a b ≤ 0`; `getTime` models `new Date(s).getTime()` and `cmp` models
`String.prototype.localeCompare` with the `"ko"` locale. -/
def sortTours (getTime : String → Int) (cmp : String → String → Int)
    (tours : List TourItem) (sortBy : String) : List TourItem :=
  if sortBy = "latest" then
    tours.insertionSort (fun a b => getTime b.modifiedtime ≤ getTime a.modifiedtime)
  else
    tours.insertionSort (fun a b => cmp a.title b.title ≤ 0)

/-- Page size of the home page list (`numOfRows`). -/
def numOfRows : Nat := 10

/-- `totalPages` of the `Home` server component:
`Math.max(1, Math.ceil(totalCount / numOfRows))`. -/
def totalPages (totalCount : Nat) : Nat :=
  max 1 ⌈(totalCount : ℚ) / (numOfRows : ℚ)⌉₊

/-- The page number of the `Home` server component:
`Math.max(1, parseInt(params.page || "1", 10) || 1)`. -/
def homePage (pageParam : Option String) : Int :=
  let s := jsOrStr pageParam "1"
  max 1 (match jsParseInt s with
         | none => 1
         | some x => if x = 0 then 1 else x)

/-! ## Area codes (`src/lib/api/tour-api-client.ts`) -/

/-- `DEFAULT_AREA_CODES`: the hardcoded fallback list of 17 regions. -/
def DEFAULT_AREA_CODES : List AreaCode :=
  [⟨"1", "서울"⟩, ⟨"2", "인천"⟩, ⟨"3", "대전"⟩, ⟨"4", "대구"⟩,
   ⟨"5", "광주"⟩, ⟨"6", "부산"⟩, ⟨"7", "울산"⟩, ⟨"8", "세종"⟩,
   ⟨"31", "경기"⟩, ⟨"32", "강원"⟩, ⟨"33", "충북"⟩, ⟨"34", "충남"⟩,
   ⟨"35", "전북"⟩, ⟨"36", "전남"⟩, ⟨"37", "경북"⟩, ⟨"38", "경남"⟩,
   ⟨"39", "제주"⟩]

/-- Sort key of the area-code comparator `parseInt(a.code) - parseInt(b.code)`
(the `NaN` comparator case, on which JS `sort` gives no guarantee, is
modelled as key `0`). -/
def areaKey (a : AreaCode) : Int :=
  (jsParseInt a.code).getD 0

/-- `fetchAreaCodes`: call the proxy's `areaCode` endpoint; on any failure or
an empty item list fall back to `DEFAULT_AREA_CODES`, on success sort the
items ascending by the numeric value of their code. -/
def fetchAreaCodes (net : NetResponse AreaCode) : List AreaCode :=
  match net with
  | .notOk _ _ => DEFAULT_AREA_CODES
  | .okJson resultCode _ items _ =>
    if resultCode ≠ "0000" then DEFAULT_AREA_CODES
    else
      let areaCodes := (itemsToList items).insertionSort
        (fun a b => areaKey a ≤ areaKey b)
      if areaCodes.length > 0 then areaCodes else DEFAULT_AREA_CODES
  | .throws _ => DEFAULT_AREA_CODES

/-! ## Bookmarks table and API (`migration SQL`, `src/lib/api/bookmark-api-client.ts`) -/

/-- One row of `public.bookmarks`. -/
structure BookmarkRow where
  id : String
  user_id : String
  content_id : String
  created_at : String
  deriving Repr, DecidableEq

/-- The `UNIQUE(user_id, content_id)` constraint `unique_user_bookmark`:
no two rows share the `(user_id, content_id)` pair. -/
def uniqueUserBookmark (table : List BookmarkRow) : Prop :=
  table.Pairwise (fun a b => ¬(a.user_id = b.user_id ∧ a.content_id = b.content_id))

/-- Postgres `INSERT` into `bookmarks`: rejected with error code `23505`
when a row with the same `(user_id, content_id)` already exists, otherwise
the row is appended. -/
def dbInsertBookmark (table : List BookmarkRow) (row : BookmarkRow) :
    Except String (List BookmarkRow) :=
  if table.any (fun r => r.user_id == row.user_id && r.content_id == row.content_id) then
    .error "23505"
  else
    .ok (table ++ [row])

/-- Result record of the bookmark API functions. -/
structure BookmarkApiResult where
  success : Bool
  error : Option String
  deriving Repr, DecidableEq

/-- Error message `addBookmark` returns for a duplicate bookmark. -/
def duplicateBookmarkMsg : String := "이미 북마크된 항목입니다."

/-- `addBookmark` from `src/lib/api/bookmark-api-client.ts`: insert the pair;
on unique violation (code `23505`) report the duplicate, on any other
database error report its message; also returns the table after the call. -/
def addBookmark (table : List BookmarkRow) (userId contentId : String)
    (newId newTime : String) : BookmarkApiResult × List BookmarkRow :=
  match dbInsertBookmark table ⟨newId, userId, contentId, newTime⟩ with
  | .error code =>
    if code = "23505" then (⟨false, some duplicateBookmarkMsg⟩, table)
    else (⟨false, some code⟩, table)
  | .ok table₂ => (⟨true, none⟩, table₂)

/-- `removeBookmark`: delete every row matching the pair. -/
def removeBookmark (table : List BookmarkRow) (userId contentId : String) :
    BookmarkApiResult × List BookmarkRow :=
  (⟨true, none⟩,
   table.filter (fun r => !(r.user_id == userId && r.content_id == contentId)))

/-! ## API proxy route (`src/app/api/tour/route.ts`) -/

/-- One entry of `ENDPOINT_CONFIG`. -/
structure EndpointConfig where
  path : String
  requiredParams : List String
  deriving Repr, DecidableEq

/-- `ENDPOINT_CONFIG`: the six supported endpoints with their upstream paths
and required parameters. -/
def ENDPOINT_CONFIG : List (String × EndpointConfig) :=
  [("areaCode", ⟨"/areaCode2", ["serviceKey", "MobileOS", "MobileApp"]⟩),
   ("areaBasedList",
    ⟨"/areaBasedList2",
     ["serviceKey", "MobileOS", "MobileApp", "areaCode", "contentTypeId"]⟩),
   ("searchKeyword",
    ⟨"/searchKeyword2", ["serviceKey", "MobileOS", "MobileApp", "keyword"]⟩),
   ("detailCommon",
    ⟨"/detailCommon2", ["serviceKey", "MobileOS", "MobileApp", "contentId"]⟩),
   ("detailIntro",
    ⟨"/detailIntro2",
     ["serviceKey", "MobileOS", "MobileApp", "contentId", "contentTypeId"]⟩),
   ("detailImage",
    ⟨"/detailImage2", ["serviceKey", "MobileOS", "MobileApp", "contentId"]⟩)]

/-- `getCommonParams()`: the parameters the proxy supplies itself, with the
secret service key first. -/
def commonParams (apiKey : String) : List (String × String) :=
  [("serviceKey", apiKey), ("MobileOS", "ETC"), ("MobileApp", "MyTrip"),
   ("_type", "json")]

/-- `Object.keys(commonParams)`. -/
def commonParamKeys (apiKey : String) : List String :=
  (commonParams apiKey).map Prod.fst

/-- The loop over `config.requiredParams`: skip parameters already in the
common set, fail (HTTP 400) on a missing or empty value, collect the rest in
order. -/
def collectRequired (query : String → Option String) (apiKey : String) :
    List String → Except Unit (List (String × String))
  | [] => .ok []
  | p :: rest =>
    if (commonParamKeys apiKey).contains p then
      collectRequired query apiKey rest
    else if jsTruthy (query p) then
      (collectRequired query apiKey rest).map
        (fun l => (p, (query p).getD "") :: l)
    else .error ()

/-- The whitelisted optional parameters, appended when present and
non-empty. -/
def collectOptional (query : String → Option String) : List (String × String) :=
  ["numOfRows", "pageNo", "sigunguCode"].filterMap (fun p =>
    match query p with
    | none => none
    | some v => if v = "" then none else some (p, v))

/-- Parameter marshaling of the proxy `GET` handler: either HTTP 400 (the
external API is not called) or the upstream path with the full ordered
parameter list. -/
def buildProxyRequest (query : String → Option String) (apiKey : String) :
    Except Nat (String × List (String × String)) :=
  match query "endpoint" with
  | none => .error 400
  | some ep =>
    match ENDPOINT_CONFIG.find? (fun c => c.1 == ep) with
    | none => .error 400
    | some (_, config) =>
      match collectRequired query apiKey config.requiredParams with
      | .error _ => .error 400
      | .ok req =>
        .ok (config.path, commonParams apiKey ++ req ++ collectOptional query)

/-- Observed upstream response of the government API. -/
inductive UpstreamResp where
  | httpError (status : Nat)
  | okJson (resultCode : Option String)
  | throws
  deriving Repr, DecidableEq

/-- What the proxy `GET` handler did: rejected without an upstream call, or
called upstream with a path and parameters and produced a status; the flag
records whether the body returned is the upstream JSON itself. -/
inductive ProxyResult where
  | noCall (status : Nat)
  | called (path : String) (params : List (String × String)) (status : Nat)
      (upstreamJson : Bool)
  deriving Repr, DecidableEq

/-- The proxy `GET` handler (`src/app/api/tour/route.ts`): marshal the
parameters, forward to the government API, pass the upstream JSON through on
a `"0000"` result code, and map upstream failures to error responses. -/
def proxyGET (query : String → Option String) (apiKey : String)
    (upstream : UpstreamResp) : ProxyResult :=
  match buildProxyRequest query apiKey with
  | .error s => .noCall s
  | .ok (path, params) =>
    match upstream with
    | .httpError status => .called path params status false
    | .okJson rc =>
      if rc = some "0000" then .called path params 200 true
      else .called path params 400 false
    | .throws => .called path params 500 false

/-! ## Bookmark list fan-out (`src/components/bookmarks/bookmark-list.tsx`) -/

/-- `BookmarkWithTour` as built by the localStorage flow: the stored
bookmark and the fetched detail (`null` on failure). -/
structure BookmarkWithTour where
  bookmark : LocalStorageBookmark
  tour : Option TourDetail
  deriving Repr, DecidableEq

/-- Outcome of one `fetchTourDetailClient` promise: fulfilled with a detail
(or `null`, as the function itself maps its errors to `null`), fulfilled via
the surrounding `catch`, or rejected. -/
inductive FetchOutcome where
  | fetched (tour : Option TourDetail)
  | threw (msg : Option String)
  | rejected
  deriving Repr, DecidableEq

/-- Mapping of one settled result: a fulfilled promise keeps its value, the
`catch` path and a rejection both carry `tour: null`. -/
def settleBookmark (b : LocalStorageBookmark) (o : FetchOutcome) : BookmarkWithTour :=
  match o with
  | .fetched t => ⟨b, t⟩
  | .threw _ => ⟨b, none⟩
  | .rejected => ⟨b, none⟩

/-- The `Promise.allSettled` fan-out of the localStorage `useEffect`: one
settled entry per stored bookmark, in order. -/
def loadLocalBookmarks (l : List (LocalStorageBookmark × FetchOutcome)) :
    List BookmarkWithTour :=
  l.map (fun p => settleBookmark p.1 p.2)

/-- Title read by the `"name"` comparator (`a.tour?.title || ""`). -/
def tourTitleOf (b : BookmarkWithTour) : String :=
  jsOrStr ((b.tour).map TourDetail.title) ""

/-- Address read by the `"region"` comparator (`a.tour?.addr1 || ""`). -/
def tourAddrOf (b : BookmarkWithTour) : String :=
  jsOrStr ((b.tour).map TourDetail.addr1) ""

/-- `sortedBookmarks` (`useMemo`): drop the entries whose detail fetch
failed (`tour === null`), then sort by the selected option. -/
def sortedBookmarks (getTime : String → Int) (cmp : String → String → Int)
    (sortOption : Option String) (bookmarks : List BookmarkWithTour) :
    List BookmarkWithTour :=
  if jsOrStr sortOption "latest" = "latest" then
    (bookmarks.filter (fun item => item.tour.isSome)).insertionSort (fun a b =>
      getTime b.bookmark.created_at ≤ getTime a.bookmark.created_at)
  else if jsOrStr sortOption "latest" = "name" then
    (bookmarks.filter (fun item => item.tour.isSome)).insertionSort (fun a b =>
      cmp (tourTitleOf a) (tourTitleOf b) ≤ 0)
  else if jsOrStr sortOption "latest" = "region" then
    (bookmarks.filter (fun item => item.tour.isSome)).insertionSort (fun a b =>
      cmp (tourAddrOf a) (tourAddrOf b) ≤ 0)
  else bookmarks.filter (fun item => item.tour.isSome)

/-- Whether one detail fetch succeeded with a non-null detail. -/
def fetchSucceeded : FetchOutcome → Bool
  | .fetched (some _) => true
  | _ => false

/-- The required-parameter values the proxy forwards: the required
parameters outside the common set, each paired with its query value. -/
def requiredParamValues (query : String → Option String) (apiKey : String)
    (ps : List String) : List (String × String) :=
  (ps.filter (fun p => !(commonParamKeys apiKey).contains p)).map
    (fun p => (p, (query p).getD ""))

/-- A sample proxy query with a valid endpoint and all required values. -/
def sampleQueryOk : String → Option String := fun k =>
  if k = "endpoint" then some "searchKeyword"
  else if k = "keyword" then some "서울"
  else if k = "pageNo" then some "2"
  else none

/-- A sample proxy query missing the required `keyword` parameter. -/
def sampleQueryMissing : String → Option String := fun k =>
  if k = "endpoint" then some "searchKeyword" else none

/-- A sample proxy query naming an unsupported endpoint. -/
def sampleQueryBad : String → Option String := fun k =>
  if k = "endpoint" then some "bogus" else none

/-! ## Sample data for concrete instantiations -/

/-- A sample tour item. -/
def sampleTour1 : TourItem :=
  ⟨"서울 종로구", "1", "100001", "12", "나들이 명소", "1271234567", "371234567",
   "20240101120000"⟩

/-- A second sample tour item, modified later and titled earlier. -/
def sampleTour2 : TourItem :=
  ⟨"서울 중구", "1", "100002", "12", "가볼 만한 곳", "1269876543", "375432109",
   "20240202120000"⟩

/-- A sample tour detail. -/
def sampleDetail : TourDetail :=
  ⟨"100001", "12", "나들이 명소", "서울 종로구", "1271234567", "371234567"⟩

/-- A sample stored bookmark. -/
def sampleBookmark1 : LocalStorageBookmark :=
  ⟨"100001", "2024-01-01T00:00:00Z"⟩

/-- A second sample stored bookmark. -/
def sampleBookmark2 : LocalStorageBookmark :=
  ⟨"100002", "2024-02-02T00:00:00Z"⟩

/-- A sample bookmarks table row. -/
def sampleRow : BookmarkRow :=
  ⟨"id-1", "user-1", "100001", "2024-01-01T00:00:00Z"⟩

/-! ## Helper lemmas -/

/-- If everything left by `dropWhile p` satisfies `p`, nothing is left. -/
lemma dropWhile_eq_nil_of_all {α : Type} (p : α → Bool) :
    ∀ l : List α, (∀ x ∈ l.dropWhile p, p x) → l.dropWhile p = []
  | [], _ => rfl
  | c :: t, h => by
    by_cases hc : p c
    · rw [List.dropWhile_cons_of_pos hc] at h ⊢
      exact dropWhile_eq_nil_of_all p t h
    · rw [List.dropWhile_cons_of_neg hc] at h
      exact absurd (h c (List.mem_cons_self c t)) hc

/-- A string whose `jsTrim` is empty is all whitespace, so the leading
whitespace drop consumes it entirely. -/
lemma dropWhile_nil_of_jsTrim_empty {s : String} (h : jsTrim s = "") :
    s.data.dropWhile isJsWS = [] := by
  have hdata : ((s.data.dropWhile isJsWS).reverse.dropWhile isJsWS).reverse = [] :=
    congrArg String.data h
  rw [List.reverse_eq_nil_iff] at hdata
  rw [List.dropWhile_eq_nil_iff] at hdata
  exact dropWhile_eq_nil_of_all isJsWS _ (fun x hx =>
    hdata x (List.mem_reverse.mpr hx))

/-- `parseFloat` fails on an empty or whitespace-only string. -/
lemma jsParseFloat_eq_none_of_jsTrim_empty {s : String} (h : jsTrim s = "") :
    jsParseFloat s = none := by
  unfold jsParseFloat
  rw [dropWhile_nil_of_jsTrim_empty h]
  rfl

/-- A successfully parsed string is neither empty nor whitespace-only. -/
lemma jsTrim_ne_empty_of_parseFloat {s : String} {x : ℚ}
    (h : jsParseFloat s = some x) : jsTrim s ≠ "" := by
  intro he
  rw [jsParseFloat_eq_none_of_jsTrim_empty he] at h
  exact Option.noConfusion h

/-- An empty string trims to the empty string. -/
lemma jsTrim_empty : jsTrim "" = "" := rfl

/-! ## C1: coordinate conversion -/

/-- **C1.** `convertKATECToNaver` returns `null` when either input is empty,
whitespace-only, or fails to parse; returns `null` when the scaled longitude
leaves `[-180, 180]` or the scaled latitude leaves `[-90, 90]`; and otherwise
returns the coordinate obtained by dividing each parsed value by `10^7`. -/
theorem convertKATECToNaver_spec (mapx mapy : String) :
    ((jsTrim mapx = "" ∨ jsTrim mapy = "" ∨
      jsParseFloat mapx = none ∨ jsParseFloat mapy = none) →
      convertKATECToNaver mapx mapy = none) ∧
    (∀ x y : ℚ, jsParseFloat mapx = some x → jsParseFloat mapy = some y →
      (x / 10000000 < -180 ∨ 180 < x / 10000000 ∨
       y / 10000000 < -90 ∨ 90 < y / 10000000) →
      convertKATECToNaver mapx mapy = none) ∧
    (∀ x y : ℚ, jsParseFloat mapx = some x → jsParseFloat mapy = some y →
      -180 ≤ x / 10000000 → x / 10000000 ≤ 180 →
      -90 ≤ y / 10000000 → y / 10000000 ≤ 90 →
      convertKATECToNaver mapx mapy =
        some ⟨x / 10000000, y / 10000000⟩) := by
  refine ⟨?_, ?_, ?_⟩
  · intro h
    unfold convertKATECToNaver
    rcases h with h | h | h | h
    · simp [h]
    · simp [h]
    · by_cases hif : mapx = "" ∨ mapy = "" ∨ jsTrim mapx = "" ∨ jsTrim mapy = ""
      · simp [hif]
      · simp only [hif, if_false]
        rw [h]
    · by_cases hif : mapx = "" ∨ mapy = "" ∨ jsTrim mapx = "" ∨ jsTrim mapy = ""
      · simp [hif]
      · simp only [hif, if_false]
        rw [h]
        cases jsParseFloat mapx <;> rfl
  · intro x y hx hy hrange
    have htx := jsTrim_ne_empty_of_parseFloat hx
    have hty := jsTrim_ne_empty_of_parseFloat hy
    have hex : mapx ≠ "" := fun he => htx (he ▸ jsTrim_empty)
    have hey : mapy ≠ "" := fun he => hty (he ▸ jsTrim_empty)
    unfold convertKATECToNaver
    have hif : ¬(mapx = "" ∨ mapy = "" ∨ jsTrim mapx = "" ∨ jsTrim mapy = "") := by
      push_neg
      exact ⟨hex, hey, htx, hty⟩
    simp only [hif, if_false]
    rw [hx, hy]
    simp only [hrange, if_pos]
  · intro x y hx hy h1 h2 h3 h4
    have htx := jsTrim_ne_empty_of_parseFloat hx
    have hty := jsTrim_ne_empty_of_parseFloat hy
    have hex : mapx ≠ "" := fun he => htx (he ▸ jsTrim_empty)
    have hey : mapy ≠ "" := fun he => hty (he ▸ jsTrim_empty)
    unfold convertKATECToNaver
    have hif : ¬(mapx = "" ∨ mapy = "" ∨ jsTrim mapx = "" ∨ jsTrim mapy = "") := by
      push_neg
      exact ⟨hex, hey, htx, hty⟩
    simp only [hif, if_false]
    rw [hx, hy]
    have hrange : ¬(x / 10000000 < -180 ∨ 180 < x / 10000000 ∨
        y / 10000000 < -90 ∨ 90 < y / 10000000) := by
      push_neg
      exact ⟨h1, h2, h3, h4⟩
    simp only [hrange, if_false]

/-- Instantiation of `convertKATECToNaver_spec` at concrete inputs: an empty
longitude string, an out-of-range longitude, and the documented example
conversion. -/
theorem convertKATECToNaver_spec_witness :
    convertKATECToNaver "" "371234567" = none ∧
    convertKATECToNaver "9999999999" "371234567" = none ∧
    convertKATECToNaver "1271234567" "371234567" =
      some ⟨1271234567 / 10000000, 371234567 / 10000000⟩ := by
  have hbig : jsParseFloat "9999999999" = some ((9999999999 : ℚ)) := by
    have h : jsParseFloat "9999999999" =
        some (((9999999999 : ℕ) : ℚ) + ((0 : ℕ) : ℚ) / 10 ^ (0 : ℕ)) := rfl
    rw [h]
    norm_num
  have hx : jsParseFloat "1271234567" = some ((1271234567 : ℚ)) := by
    have h : jsParseFloat "1271234567" =
        some (((1271234567 : ℕ) : ℚ) + ((0 : ℕ) : ℚ) / 10 ^ (0 : ℕ)) := rfl
    rw [h]
    norm_num
  have hy : jsParseFloat "371234567" = some ((371234567 : ℚ)) := by
    have h : jsParseFloat "371234567" =
        some (((371234567 : ℕ) : ℚ) + ((0 : ℕ) : ℚ) / 10 ^ (0 : ℕ)) := rfl
    rw [h]
    norm_num
  refine ⟨?_, ?_, ?_⟩
  · exact (convertKATECToNaver_spec "" "371234567").1 (Or.inl rfl)
  · exact (convertKATECToNaver_spec "9999999999" "371234567").2.1
      9999999999 371234567 hbig hy
      (Or.inr (Or.inl (by norm_num)))
  · exact (convertKATECToNaver_spec "1271234567" "371234567").2.2
      1271234567 371234567 hx hy
      (by norm_num) (by norm_num) (by norm_num) (by norm_num)

/-! ## C2: search keyword validation -/

/-- **C2.** A keyword whose trimmed form is shorter than 2 characters makes
`fetchTourSearch` return without issuing a request, with an empty tour list,
`totalCount` 0 and the validation error message; a trimmed keyword of length
at least 2 passes validation and the request is issued. -/
theorem fetchTourSearch_validation (keyword : String) (net : NetResponse TourItem) :
    ((jsTrim keyword).length < 2 →
      (fetchTourSearch keyword net).requested = false ∧
      (fetchTourSearch keyword net).tours = [] ∧
      (fetchTourSearch keyword net).totalCount = 0 ∧
      (fetchTourSearch keyword net).error = some searchInvalidKeywordMsg) ∧
    (2 ≤ (jsTrim keyword).length →
      (fetchTourSearch keyword net).requested = true) := by
  constructor
  · intro h
    have hcond : jsTrim keyword = "" ∨ (jsTrim keyword).length < 2 := Or.inr h
    simp [fetchTourSearch, hcond]
  · intro h
    have hcond : ¬(jsTrim keyword = "" ∨ (jsTrim keyword).length < 2) := by
      push_neg
      refine ⟨?_, by omega⟩
      intro he
      rw [he] at h
      simp at h
    simp only [fetchTourSearch, hcond, if_false]
    cases net with
    | notOk msg status => rfl
    | okJson rc rmsg items tc =>
      by_cases hrc : rc ≠ "0000" <;> simp [hrc]
    | throws msg => rfl

/-- Instantiation of `fetchTourSearch_validation`: the one-character keyword
`"a"` is rejected without a request, the keyword `"서울"` passes. -/
theorem fetchTourSearch_validation_witness :
    (fetchTourSearch "a" (NetResponse.throws none)).requested = false ∧
    (fetchTourSearch "a" (NetResponse.throws none)).tours = [] ∧
    (fetchTourSearch "a" (NetResponse.throws none)).totalCount = 0 ∧
    (fetchTourSearch "a" (NetResponse.throws none)).error =
      some searchInvalidKeywordMsg ∧
    (fetchTourSearch "서울" (NetResponse.throws none)).requested = true := by
  obtain ⟨h1, h2, h3, h4⟩ :=
    (fetchTourSearch_validation "a" (NetResponse.throws none)).1 (by decide)
  exact ⟨h1, h2, h3, h4,
    (fetchTourSearch_validation "서울" (NetResponse.throws none)).2 (by decide)⟩

/-! ## C4: page count -/

/-- **C4.** `totalPages` is at least 1, equals 1 at `totalCount = 0`,
coincides with the rounded-up integer division of `totalCount` by the page
size, and is the least page count whose pages hold all `totalCount` items. -/
theorem totalPages_spec (totalCount : Nat) :
    1 ≤ totalPages totalCount ∧
    (totalCount = 0 → totalPages totalCount = 1) ∧
    totalPages totalCount = max 1 ((totalCount + numOfRows - 1) / numOfRows) ∧
    totalCount ≤ totalPages totalCount * numOfRows ∧
    (∀ m : Nat, 1 ≤ m → totalCount ≤ m * numOfRows →
      totalPages totalCount ≤ m) := by
  have hten : (0 : ℚ) < (numOfRows : ℚ) := by norm_num [numOfRows]
  have hle : (totalCount : ℚ) / (numOfRows : ℚ) ≤
      (⌈(totalCount : ℚ) / (numOfRows : ℚ)⌉₊ : ℚ) := Nat.le_ceil _
  have htc : totalCount ≤ ⌈(totalCount : ℚ) / (numOfRows : ℚ)⌉₊ * numOfRows := by
    have h2 := (div_le_iff₀ hten).mp hle
    exact_mod_cast h2
  have hceil_le : ∀ m : Nat, totalCount ≤ m * numOfRows →
      ⌈(totalCount : ℚ) / (numOfRows : ℚ)⌉₊ ≤ m := by
    intro m hm
    refine Nat.ceil_le.mpr ?_
    rw [div_le_iff₀ hten]
    exact_mod_cast hm
  have hnum : numOfRows = 10 := rfl
  have htp : totalPages totalCount =
      max 1 ⌈(totalCount : ℚ) / (numOfRows : ℚ)⌉₊ := rfl
  refine ⟨le_max_left _ _, ?_, ?_, ?_, ?_⟩
  · intro h0
    subst h0
    rw [htp]
    norm_num
  · rw [htp]
    apply Nat.le_antisymm
    · refine max_le (le_max_left _ _) (le_trans (hceil_le _ ?_) (le_max_right _ _))
      rw [hnum]
      omega
    · refine max_le (le_max_left _ _) (le_trans ?_ (le_max_right _ _))
      rw [hnum]
      rw [hnum] at htc
      omega
  · exact le_trans htc (mul_le_mul_right' (le_max_right 1 _) numOfRows)
  · intro m h1 hm
    exact max_le h1 (hceil_le m hm)

/-- Instantiation of `totalPages_spec`: zero items give one page, and 25
items need exactly 3 pages of 10. -/
theorem totalPages_spec_witness :
    totalPages 0 = 1 ∧ 25 ≤ totalPages 25 * numOfRows ∧ totalPages 25 ≤ 3 :=
  ⟨(totalPages_spec 0).2.1 rfl, (totalPages_spec 25).2.2.2.1,
   (totalPages_spec 25).2.2.2.2 3 (by norm_num) (by norm_num [numOfRows])⟩

/-! ## C9: page URL parameter sanitisation -/

/-- **C9.** The page number computed by the home page is always at least 1,
and every malformed or out-of-range `page` parameter (absent, empty,
non-numeric, zero or negative) yields exactly 1. -/
theorem homePage_spec (p : Option String) :
    1 ≤ homePage p ∧
    (p = none → homePage p = 1) ∧
    (∀ s, p = some s → s = "" → homePage p = 1) ∧
    (∀ s, p = some s → s ≠ "" → jsParseInt s = none → homePage p = 1) ∧
    (∀ s x, p = some s → s ≠ "" → jsParseInt s = some x → x ≤ 0 →
      homePage p = 1) := by
  refine ⟨?_, ?_, ?_, ?_, ?_⟩
  · exact le_max_left _ _
  · intro h
    subst h
    simp [homePage, jsOrStr, jsParseInt, parseIntDigits, isJsWS, digitsVal]
  · intro s hp hs
    subst hp
    subst hs
    simp [homePage, jsOrStr, jsParseInt, parseIntDigits, isJsWS, digitsVal]
  · intro s hp hs hparse
    subst hp
    simp only [homePage, jsOrStr, hs, if_false, hparse]
    rfl
  · intro s x hp hs hparse hx
    subst hp
    simp only [homePage, jsOrStr, hs, if_false, hparse]
    by_cases h0 : x = 0
    · simp [h0]
    · simp only [h0, if_false]
      omega

/-- Instantiation of `homePage_spec` at the malformed inputs `"abc"`, `"0"`
and `"-3"`, and at the absent parameter. -/
theorem homePage_spec_witness :
    homePage none = 1 ∧
    homePage (some "") = 1 ∧
    homePage (some "abc") = 1 ∧
    homePage (some "0") = 1 ∧
    homePage (some "-3") = 1 :=
  ⟨(homePage_spec none).2.1 rfl,
   (homePage_spec (some "")).2.2.1 "" rfl rfl,
   (homePage_spec (some "abc")).2.2.2.1 "abc" rfl (by decide) (by decide),
   (homePage_spec (some "0")).2.2.2.2 "0" 0 rfl (by decide) (by decide) le_rfl,
   (homePage_spec (some "-3")).2.2.2.2 "-3" (-3) rfl (by decide) (by decide)
     (by norm_num)⟩

/-! ## C10: `fetchTourList` omits `totalCount` on a non-OK response -/

/-- **C10.** On a non-OK HTTP response `fetchTourList` returns an empty tour
list and a non-null error but no `totalCount` at all (`undefined`, modelled
as `none`), while the catch branch returns `totalCount = 0`. -/
theorem fetchTourList_totalCount_undefined (msg catchMsg : Option String)
    (status : Nat) :
    (fetchTourList (NetResponse.notOk msg status)).tours = [] ∧
    (fetchTourList (NetResponse.notOk msg status)).totalCount = none ∧
    (fetchTourList (NetResponse.notOk msg status)).error ≠ none ∧
    (fetchTourList (NetResponse.throws catchMsg)).totalCount = some 0 := by
  refine ⟨rfl, rfl, ?_, rfl⟩
  simp [fetchTourList]

/-! ## C8: list sorting -/

/-- **C8.** For every comparator model (`getTime` for `Date.getTime`, a
total transitive `cmp` for Korean `localeCompare`), `sortTours` returns a
permutation of its input; with `"latest"` the result is ordered by
non-increasing modification time, with any other option by title ascending
under the comparator. -/
theorem sortTours_spec (getTime : String → Int) (cmp : String → String → Int)
    (tours : List TourItem) (sortBy : String)
    (htot : ∀ a b, cmp a b ≤ 0 ∨ cmp b a ≤ 0)
    (htrans : ∀ a b c, cmp a b ≤ 0 → cmp b c ≤ 0 → cmp a c ≤ 0) :
    List.Perm (sortTours getTime cmp tours sortBy) tours ∧
    (sortBy = "latest" →
      (sortTours getTime cmp tours sortBy).Pairwise
        (fun a b => getTime b.modifiedtime ≤ getTime a.modifiedtime)) ∧
    (sortBy ≠ "latest" →
      (sortTours getTime cmp tours sortBy).Pairwise
        (fun a b => cmp a.title b.title ≤ 0)) := by
  by_cases hlatest : sortBy = "latest"
  · have hdef : sortTours getTime cmp tours sortBy =
        tours.insertionSort
          (fun a b => getTime b.modifiedtime ≤ getTime a.modifiedtime) := by
      simp [sortTours, hlatest]
    haveI : IsTotal TourItem
        (fun a b => getTime b.modifiedtime ≤ getTime a.modifiedtime) :=
      ⟨fun a b => le_total (getTime b.modifiedtime) (getTime a.modifiedtime)⟩
    haveI : IsTrans TourItem
        (fun a b => getTime b.modifiedtime ≤ getTime a.modifiedtime) :=
      ⟨fun _ _ _ hab hbc => le_trans hbc hab⟩
    refine ⟨?_, fun _ => ?_, fun hne => absurd hlatest hne⟩
    · rw [hdef]
      exact List.perm_insertionSort _ tours
    · rw [hdef]
      exact List.sorted_insertionSort _ tours
  · have hdef : sortTours getTime cmp tours sortBy =
        tours.insertionSort (fun a b => cmp a.title b.title ≤ 0) := by
      simp [sortTours, hlatest]
    haveI : IsTotal TourItem (fun a b => cmp a.title b.title ≤ 0) :=
      ⟨fun a b => htot a.title b.title⟩
    haveI : IsTrans TourItem (fun a b => cmp a.title b.title ≤ 0) :=
      ⟨fun a b c hab hbc => htrans a.title b.title c.title hab hbc⟩

    refine ⟨?_, fun he => absurd he hlatest, fun _ => ?_⟩
    · rw [hdef]
      exact List.perm_insertionSort _ tours
    · rw [hdef]
      exact List.sorted_insertionSort _ tours

/-- Instantiation of `sortTours_spec` with concrete comparators and a
two-element list. -/
theorem sortTours_spec_witness :
    List.Perm
      (sortTours (fun s => (s.length : Int)) (fun _ _ => 0)
        [sampleTour1, sampleTour2] "latest")
      [sampleTour1, sampleTour2] :=
  (sortTours_spec (fun s => (s.length : Int)) (fun _ _ => 0)
    [sampleTour1, sampleTour2] "latest"
    (fun _ _ => Or.inl le_rfl) (fun _ _ _ _ _ => le_rfl)).1

/-! ## C6: area codes never fail and never come back empty -/

/-- **C6.** `fetchAreaCodes` always returns a non-empty list: every failure
path (non-OK response, bad result code, thrown error, empty item list) gives
the hardcoded 17-region default list with codes 1-8 and 31-39, and a
successful non-empty response gives a permutation of the received items
sorted ascending by the numeric value of their code. -/
theorem fetchAreaCodes_spec :
    (∀ net : NetResponse AreaCode, fetchAreaCodes net ≠ []) ∧
    DEFAULT_AREA_CODES.length = 17 ∧
    DEFAULT_AREA_CODES.map AreaCode.code =
      ["1", "2", "3", "4", "5", "6", "7", "8",
       "31", "32", "33", "34", "35", "36", "37", "38", "39"] ∧
    (∀ m s, fetchAreaCodes (NetResponse.notOk m s) = DEFAULT_AREA_CODES) ∧
    (∀ m, fetchAreaCodes (NetResponse.throws m) = DEFAULT_AREA_CODES) ∧
    (∀ rc rm items tc, rc ≠ "0000" →
      fetchAreaCodes (NetResponse.okJson rc rm items tc) = DEFAULT_AREA_CODES) ∧
    (∀ rm items tc, itemsToList items = ([] : List AreaCode) →
      fetchAreaCodes (NetResponse.okJson "0000" rm items tc) =
        DEFAULT_AREA_CODES) ∧
    (∀ rm items tc, itemsToList items ≠ ([] : List AreaCode) →
      List.Perm (fetchAreaCodes (NetResponse.okJson "0000" rm items tc))
        (itemsToList items) ∧
      (fetchAreaCodes (NetResponse.okJson "0000" rm items tc)).Pairwise
        (fun a b => areaKey a ≤ areaKey b)) := by
  have hdefault_ne : DEFAULT_AREA_CODES ≠ [] := by
    simp [DEFAULT_AREA_CODES]
  have hsort_def : ∀ (items : ItemsField AreaCode) rm tc,
      itemsToList items ≠ ([] : List AreaCode) →
      fetchAreaCodes (NetResponse.okJson "0000" rm items tc) =
        (itemsToList items).insertionSort (fun a b => areaKey a ≤ areaKey b) := by
    intro items rm tc hne
    have hlen : ((itemsToList items).insertionSort
        (fun a b => areaKey a ≤ areaKey b)).length = (itemsToList items).length :=
      List.length_insertionSort _ _
    have hpos : 0 < (itemsToList items).length := List.length_pos.mpr hne
    simp only [fetchAreaCodes, ne_eq, not_true_eq_false, if_false, reduceIte]
    rw [if_pos]
    omega
  haveI : IsTotal AreaCode (fun a b => areaKey a ≤ areaKey b) :=
    ⟨fun a b => le_total (areaKey a) (areaKey b)⟩
  haveI : IsTrans AreaCode (fun a b => areaKey a ≤ areaKey b) :=
    ⟨fun _ _ _ hab hbc => le_trans hab hbc⟩
  refine ⟨?_, rfl, rfl, fun m s => rfl, fun m => rfl, ?_, ?_, ?_⟩
  · intro net
    cases net with
    | notOk m s => exact hdefault_ne
    | throws m => exact hdefault_ne
    | okJson rc rm items tc =>
      by_cases hrc : rc = "0000"
      · subst hrc
        by_cases hne : itemsToList items = ([] : List AreaCode)
        · simp only [fetchAreaCodes, ne_eq, not_true_eq_false, if_false, reduceIte]
          rw [if_neg]
          · exact hdefault_ne
          · simp [List.length_insertionSort, hne]
        · rw [hsort_def items rm tc hne]
          intro hcontra
          have hlen := List.length_insertionSort
            (fun a b => areaKey a ≤ areaKey b) (itemsToList items)
          rw [hcontra] at hlen
          exact hne (List.length_eq_zero.mp hlen.symm)
      · simp only [fetchAreaCodes, ne_eq, hrc, not_false_eq_true, if_true, reduceIte]
        exact hdefault_ne
  · intro rc rm items tc hrc
    simp [fetchAreaCodes, hrc]
  · intro rm items tc hnil
    simp only [fetchAreaCodes, ne_eq, not_true_eq_false, if_false, reduceIte]
    rw [if_neg]
    simp [List.length_insertionSort, hnil]
  · intro rm items tc hne
    rw [hsort_def items rm tc hne]
    exact ⟨List.perm_insertionSort _ _, List.sorted_insertionSort _ _⟩

/-- Instantiation of `fetchAreaCodes_spec`: a successful response with two
out-of-order regions is returned as a permutation of the received items,
and a failed call falls back to the defaults. -/
theorem fetchAreaCodes_spec_witness :
    List.Perm
      (fetchAreaCodes (NetResponse.okJson "0000" none
        (ItemsField.arr [⟨"39", "제주"⟩, ⟨"2", "인천"⟩]) none))
      [⟨"39", "제주"⟩, ⟨"2", "인천"⟩] ∧
    fetchAreaCodes (NetResponse.notOk none 500) = DEFAULT_AREA_CODES :=
  ⟨(fetchAreaCodes_spec.2.2.2.2.2.2.2 none
      (ItemsField.arr [⟨"39", "제주"⟩, ⟨"2", "인천"⟩]) none
      (by simp [itemsToList])).1,
   fetchAreaCodes_spec.2.2.2.1 none 500⟩

/-! ## C3: bookmark uniqueness -/

/-- In a table satisfying the unique constraint, at most one row matches any
`(user_id, content_id)` pair. -/
lemma uniqueUserBookmark_filter_le_one (t : List BookmarkRow)
    (h : uniqueUserBookmark t) (u c : String) :
    (t.filter (fun r => r.user_id == u && r.content_id == c)).length ≤ 1 := by
  induction t with
  | nil => simp
  | cons r rest ih =>
    rw [uniqueUserBookmark, List.pairwise_cons] at h
    by_cases hr : (r.user_id == u && r.content_id == c) = true
    · rw [List.filter_cons, if_pos hr]
      have hru : r.user_id = u ∧ r.content_id = c := by
        simpa [Bool.and_eq_true, beq_iff_eq] using hr
      have hrest : rest.filter (fun b => b.user_id == u && b.content_id == c) = [] := by
        rw [List.filter_eq_nil_iff]
        intro b hb hbmatch
        have hbu : b.user_id = u ∧ b.content_id = c := by
          simpa [Bool.and_eq_true, beq_iff_eq] using hbmatch
        exact h.1 b hb ⟨hru.1.trans hbu.1.symm, hru.2.trans hbu.2.symm⟩
      rw [hrest]
      simp
    · rw [List.filter_cons, if_neg hr]
      exact ih h.2

/-- **C3.** Under the `UNIQUE(user_id, content_id)` constraint, inserting an
already-bookmarked pair makes `addBookmark` report failure with the
duplicate-bookmark error (unique violation `23505`) and leaves the table
unchanged; both `addBookmark` and `removeBookmark` preserve the constraint,
so at most one row ever holds a given pair. -/
theorem bookmarks_unique_spec (table : List BookmarkRow)
    (userId contentId newId newTime : String)
    (h : uniqueUserBookmark table) :
    ((∃ r ∈ table, r.user_id = userId ∧ r.content_id = contentId) →
      (addBookmark table userId contentId newId newTime).1.success = false ∧
      (addBookmark table userId contentId newId newTime).1.error =
        some duplicateBookmarkMsg ∧
      (addBookmark table userId contentId newId newTime).2 = table) ∧
    uniqueUserBookmark (addBookmark table userId contentId newId newTime).2 ∧
    (∀ u c, ((addBookmark table userId contentId newId newTime).2.filter
      (fun r => r.user_id == u && r.content_id == c)).length ≤ 1) ∧
    uniqueUserBookmark (removeBookmark table userId contentId).2 := by
  have hinv : uniqueUserBookmark
      (addBookmark table userId contentId newId newTime).2 := by
    by_cases hany : (table.any (fun r =>
        r.user_id == userId && r.content_id == contentId)) = true
    · have hres : (addBookmark table userId contentId newId newTime).2 = table := by
        simp [addBookmark, dbInsertBookmark, hany]
      rw [hres]
      exact h
    · have hfalse : (table.any (fun r =>
          r.user_id == userId && r.content_id == contentId)) = false := by
        simpa using hany
      have hres : (addBookmark table userId contentId newId newTime).2 =
          table ++ [⟨newId, userId, contentId, newTime⟩] := by
        simp [addBookmark, dbInsertBookmark, hfalse]
      rw [hres, uniqueUserBookmark, List.pairwise_append]
      refine ⟨h, List.pairwise_singleton _ _, ?_⟩
      intro a ha b hb
      have hbeq : b = (⟨newId, userId, contentId, newTime⟩ : BookmarkRow) :=
        List.mem_singleton.mp hb
      subst hbeq
      intro hcontra
      have hf := List.any_eq_false.mp hfalse a ha
      simp only [Bool.and_eq_true, beq_iff_eq] at hf
      exact hf ⟨hcontra.1, hcontra.2⟩
  refine ⟨?_, hinv, fun u c => uniqueUserBookmark_filter_le_one _ hinv u c, ?_⟩
  · intro ⟨r, hr, hru, hrc⟩
    have hany : (table.any (fun r =>
        r.user_id == userId && r.content_id == contentId)) = true := by
      rw [List.any_eq_true]
      exact ⟨r, hr, by simp [hru, hrc]⟩
    simp [addBookmark, dbInsertBookmark, hany]
  · exact List.Pairwise.sublist (List.filter_sublist _) h

/-- Instantiation of `bookmarks_unique_spec`: re-bookmarking the pair stored
in the one-row sample table fails with the duplicate error and keeps the
table intact. -/
theorem bookmarks_unique_spec_witness :
    (addBookmark [sampleRow] "user-1" "100001" "id-2" "t2").1.success = false ∧
    (addBookmark [sampleRow] "user-1" "100001" "id-2" "t2").1.error =
      some duplicateBookmarkMsg ∧
    (addBookmark [sampleRow] "user-1" "100001" "id-2" "t2").2 = [sampleRow] :=
  (bookmarks_unique_spec [sampleRow] "user-1" "100001" "id-2" "t2"
    (by simp [uniqueUserBookmark])).1
    ⟨sampleRow, by simp [sampleRow]⟩

/-! ## C7: bookmark fan-out resilience -/

/-- Filtering the settled entries for a present detail keeps exactly the
bookmarks whose fetch succeeded. -/
lemma loadLocalBookmarks_filter (l : List (LocalStorageBookmark × FetchOutcome)) :
    (loadLocalBookmarks l).filter (fun item => item.tour.isSome) =
      (l.filter (fun p => fetchSucceeded p.2)).map
        (fun p => settleBookmark p.1 p.2) := by
  induction l with
  | nil => rfl
  | cons p rest ih =>
    obtain ⟨b, o⟩ := p
    have hiff : (settleBookmark b o).tour.isSome = fetchSucceeded o := by
      cases o with
      | fetched t => cases t <;> rfl
      | threw m => rfl
      | rejected => rfl
    by_cases hok : fetchSucceeded o = true
    · rw [loadLocalBookmarks, List.map_cons, List.filter_cons,
        if_pos (hiff.trans hok), List.filter_cons]
      simp only [hok, if_pos]
      rw [List.map_cons]
      exact congrArg _ ih
    · have hok2 : fetchSucceeded o = false := by
        revert hok
        cases fetchSucceeded o <;> simp
      rw [loadLocalBookmarks, List.map_cons, List.filter_cons,
        if_neg (by rw [hiff, hok2]; exact Bool.false_ne_true), List.filter_cons]
      simp only [hok2, Bool.false_eq_true, if_false]
      exact ih

/-- **C7.** The `Promise.allSettled` fan-out yields exactly one settled entry
per stored bookmark; any entry whose fetch did not succeed carries
`tour = null`; and the sorted rendered list is a permutation of exactly the
entries whose detail fetch succeeded. -/
theorem bookmarkList_fanout_spec
    (l : List (LocalStorageBookmark × FetchOutcome))
    (getTime : String → Int) (cmp : String → String → Int)
    (sortOption : Option String) :
    (loadLocalBookmarks l).length = l.length ∧
    (∀ b o, fetchSucceeded o = false → (settleBookmark b o).tour = none) ∧
    List.Perm (sortedBookmarks getTime cmp sortOption (loadLocalBookmarks l))
      ((l.filter (fun p => fetchSucceeded p.2)).map
        (fun p => settleBookmark p.1 p.2)) := by
  refine ⟨List.length_map _ _, ?_, ?_⟩
  · intro b o ho
    cases o with
    | fetched t =>
      cases t with
      | none => rfl
      | some d => exact absurd ho (by simp [fetchSucceeded])
    | threw m => rfl
    | rejected => rfl
  · have hperm : List.Perm
        (sortedBookmarks getTime cmp sortOption (loadLocalBookmarks l))
        ((loadLocalBookmarks l).filter (fun item => item.tour.isSome)) := by
      unfold sortedBookmarks
      by_cases h1 : jsOrStr sortOption "latest" = "latest"
      · simp only [h1, if_true]
        exact List.perm_insertionSort _ _
      · simp only [h1, if_false]
        by_cases h2 : jsOrStr sortOption "latest" = "name"
        · simp only [h2, if_true]
          exact List.perm_insertionSort _ _
        · simp only [h2, if_false]
          by_cases h3 : jsOrStr sortOption "latest" = "region"
          · simp only [h3, if_true]
            exact List.perm_insertionSort _ _
          · simp only [h3, if_false]
            exact List.Perm.refl _
    rw [loadLocalBookmarks_filter l] at hperm
    exact hperm

/-- Instantiation of `bookmarkList_fanout_spec`: of two stored bookmarks,
one fetch succeeds and one is rejected; the rendered list is a permutation
of just the successful entry. -/
theorem bookmarkList_fanout_spec_witness :
    (settleBookmark sampleBookmark2 FetchOutcome.rejected).tour = none ∧
    List.Perm
      (sortedBookmarks (fun s => (s.length : Int)) (fun _ _ => 0)
        (some "latest")
        (loadLocalBookmarks
          [(sampleBookmark1, FetchOutcome.fetched (some sampleDetail)),
           (sampleBookmark2, FetchOutcome.rejected)]))
      (([(sampleBookmark1, FetchOutcome.fetched (some sampleDetail)),
         (sampleBookmark2, FetchOutcome.rejected)].filter
          (fun p => fetchSucceeded p.2)).map
        (fun p => settleBookmark p.1 p.2)) :=
  ⟨(bookmarkList_fanout_spec
      [(sampleBookmark1, FetchOutcome.fetched (some sampleDetail)),
       (sampleBookmark2, FetchOutcome.rejected)]
      (fun s => (s.length : Int)) (fun _ _ => 0) (some "latest")).2.1
      sampleBookmark2 FetchOutcome.rejected rfl,
   (bookmarkList_fanout_spec
      [(sampleBookmark1, FetchOutcome.fetched (some sampleDetail)),
       (sampleBookmark2, FetchOutcome.rejected)]
      (fun s => (s.length : Int)) (fun _ _ => 0) (some "latest")).2.2⟩

/-! ## C5: proxy parameter validation -/

/-- When every non-common required parameter is present and non-empty, the
required-parameter loop collects exactly those parameters in order. -/
lemma collectRequired_ok (query : String → Option String) (apiKey : String)
    (ps : List String)
    (h : ∀ p ∈ ps, (commonParamKeys apiKey).contains p = false →
      jsTruthy (query p) = true) :
    collectRequired query apiKey ps =
      Except.ok (requiredParamValues query apiKey ps) := by
  induction ps with
  | nil => rfl
  | cons p rest ih =>
    have ihr := ih (fun q hq => h q (List.mem_cons_of_mem p hq))
    by_cases hc : ((commonParamKeys apiKey).contains p) = true
    · have hrv : requiredParamValues query apiKey (p :: rest) =
          requiredParamValues query apiKey rest := by
        simp only [requiredParamValues, List.filter_cons, hc, Bool.not_true,
          Bool.false_eq_true, if_false]
      rw [collectRequired, if_pos hc, ihr, hrv]
    · have hc2 : (commonParamKeys apiKey).contains p = false := by
        simpa using hc
      have htru := h p (List.mem_cons_self p rest) hc2
      have hrv : requiredParamValues query apiKey (p :: rest) =
          (p, (query p).getD "") :: requiredParamValues query apiKey rest := by
        simp only [requiredParamValues, List.filter_cons, hc2, Bool.not_false,
          if_true, List.map_cons]
      rw [collectRequired, if_neg hc, if_pos htru, ihr, hrv]
      rfl

/-- When some non-common required parameter is absent or empty, the
required-parameter loop fails. -/
lemma collectRequired_err (query : String → Option String) (apiKey : String)
    (ps : List String)
    (h : ∃ p ∈ ps, (commonParamKeys apiKey).contains p = false ∧
      jsTruthy (query p) = false) :
    collectRequired query apiKey ps = Except.error () := by
  induction ps with
  | nil => exact absurd h (by simp)
  | cons q rest ih =>
    obtain ⟨p, hp, hpc, hpf⟩ := h
    by_cases hc : ((commonParamKeys apiKey).contains q) = true
    · have hpr : p ∈ rest := by
        rcases List.mem_cons.mp hp with he | hr
        · subst he
          rw [hc] at hpc
          exact absurd hpc (by simp)
        · exact hr
      rw [collectRequired, if_pos hc]
      exact ih ⟨p, hpr, hpc, hpf⟩
    · rcases List.mem_cons.mp hp with he | hr
      · subst he
        rw [collectRequired, if_neg hc, if_neg (by simp [hpf])]
      · by_cases ht : (jsTruthy (query q)) = true
        · rw [collectRequired, if_neg hc, if_pos ht, ih ⟨p, hr, hpc, hpf⟩]
          rfl
        · rw [collectRequired, if_neg hc, if_neg ht]

/-- **C5.** The proxy returns HTTP 400 without calling the external API when
the `endpoint` parameter is absent or unsupported, and when a non-common
required parameter of the selected endpoint is absent or empty; otherwise it
forwards the common parameters (secret key included), the required
parameters and the whitelisted optional parameters, and passes the upstream
JSON through on a `"0000"` result code. -/
theorem proxyGET_spec (query : String → Option String) (apiKey : String)
    (upstream : UpstreamResp) :
    (query "endpoint" = none →
      proxyGET query apiKey upstream = ProxyResult.noCall 400) ∧
    (∀ ep, query "endpoint" = some ep →
      ENDPOINT_CONFIG.find? (fun c => c.1 == ep) = none →
      proxyGET query apiKey upstream = ProxyResult.noCall 400) ∧
    (∀ ep epKey config, query "endpoint" = some ep →
      ENDPOINT_CONFIG.find? (fun c => c.1 == ep) = some (epKey, config) →
      (∃ p ∈ config.requiredParams,
        (commonParamKeys apiKey).contains p = false ∧
        jsTruthy (query p) = false) →
      proxyGET query apiKey upstream = ProxyResult.noCall 400) ∧
    (∀ ep epKey config, query "endpoint" = some ep →
      ENDPOINT_CONFIG.find? (fun c => c.1 == ep) = some (epKey, config) →
      (∀ p ∈ config.requiredParams,
        (commonParamKeys apiKey).contains p = false →
        jsTruthy (query p) = true) →
      buildProxyRequest query apiKey =
        Except.ok (config.path,
          commonParams apiKey ++
            requiredParamValues query apiKey config.requiredParams ++
            collectOptional query) ∧
      ("serviceKey", apiKey) ∈
        (commonParams apiKey ++
          requiredParamValues query apiKey config.requiredParams ++
          collectOptional query) ∧
      (upstream = UpstreamResp.okJson (some "0000") →
        proxyGET query apiKey upstream =
          ProxyResult.called config.path
            (commonParams apiKey ++
              requiredParamValues query apiKey config.requiredParams ++
              collectOptional query) 200 true)) := by
  refine ⟨?_, ?_, ?_, ?_⟩
  · intro h
    simp [proxyGET, buildProxyRequest, h]
  · intro ep hep hfind
    simp [proxyGET, buildProxyRequest, hep, hfind]
  · intro ep epKey config hep hfind hmissing
    simp [proxyGET, buildProxyRequest, hep, hfind,
      collectRequired_err query apiKey config.requiredParams hmissing]
  · intro ep epKey config hep hfind hall
    have hbuild : buildProxyRequest query apiKey =
        Except.ok (config.path,
          commonParams apiKey ++
            requiredParamValues query apiKey config.requiredParams ++
            collectOptional query) := by
      simp [buildProxyRequest, hep, hfind,
        collectRequired_ok query apiKey config.requiredParams hall]
    refine ⟨hbuild, ?_, ?_⟩
    · exact List.mem_append_left _
        (List.mem_append_left _ (List.mem_cons_self _ _))
    · intro hup
      subst hup
      rw [proxyGET, hbuild]
      simp

/-- Instantiation of `proxyGET_spec`: an unsupported endpoint and a missing
`keyword` are both rejected with 400, and a complete `searchKeyword` query
is forwarded with the service key and whitelisted optional parameters. -/
theorem proxyGET_spec_witness :
    proxyGET sampleQueryBad "KEY" UpstreamResp.throws = ProxyResult.noCall 400 ∧
    proxyGET sampleQueryMissing "KEY" UpstreamResp.throws =
      ProxyResult.noCall 400 ∧
    proxyGET sampleQueryOk "KEY" (UpstreamResp.okJson (some "0000")) =
      ProxyResult.called "/searchKeyword2"
        (commonParams "KEY" ++
          requiredParamValues sampleQueryOk "KEY"
            ["serviceKey", "MobileOS", "MobileApp", "keyword"] ++
          collectOptional sampleQueryOk) 200 true := by
  refine ⟨?_, ?_, ?_⟩
  · exact (proxyGET_spec sampleQueryBad "KEY" UpstreamResp.throws).2.1
      "bogus" rfl (by decide)
  · exact (proxyGET_spec sampleQueryMissing "KEY" UpstreamResp.throws).2.2.1
      "searchKeyword"
      "searchKeyword"
      ⟨"/searchKeyword2", ["serviceKey", "MobileOS", "MobileApp", "keyword"]⟩
      rfl (by decide)
      ⟨"keyword", by decide, by decide, rfl⟩
  · exact ((proxyGET_spec sampleQueryOk "KEY"
      (UpstreamResp.okJson (some "0000"))).2.2.2
      "searchKeyword"
      "searchKeyword"
      ⟨"/searchKeyword2", ["serviceKey", "MobileOS", "MobileApp", "keyword"]⟩
      rfl (by decide)
      (by decide)).2.2 rfl

end Mytrip
